import Mathlib

/-!
Shallow embedding of the physics engine in `Balls.py` (classes `Body`, `Ball`,
`Platform`, `Simulation`).  Python floats are idealized as real numbers; the
2-vector type `V2` mirrors `pygame.math.Vector2` as used by the source.
Observer notifications (`play_collision_sound`) are modelled as the list of
magnitudes passed to the sound call, in call order; the sound object itself is
I/O and stays outside the model.
-/

namespace Balls

/-- A 2D vector, mirroring `pygame.math.Vector2` as the source uses it. -/
@[ext]
structure V2 where
  x : ℝ
  y : ℝ

namespace V2

/-- Componentwise difference, mirroring `u - v` on vectors. -/
def sub (a b : V2) : V2 := ⟨a.x - b.x, a.y - b.y⟩

/-- Dot product, mirroring `u.dot(v)`. -/
def dot (a b : V2) : ℝ := a.x * b.x + a.y * b.y

/-- Euclidean norm, mirroring `v.length()`. -/
noncomputable def length (v : V2) : ℝ := Real.sqrt (v.x ^ 2 + v.y ^ 2)

/-- Euclidean distance, mirroring `a.distance_to(b)`. -/
noncomputable def distance_to (a b : V2) : ℝ :=
  Real.sqrt ((b.x - a.x) ^ 2 + (b.y - a.y) ^ 2)

end V2

/-- State of a `Ball` instance: the `Body` fields plus `radius`
(`Ball.__init__`, lines 91-93). The cosmetic `color` field is omitted. -/
@[ext]
structure Ball where
  pos : V2
  vel : V2
  mass : ℝ
  radius : ℝ
  elasticity : ℝ

/-- State of a `Platform` instance: the `Body` fields (velocity `(0, 0)` and
sentinel mass `-1` are stored by `Platform.__init__`) plus `width` and
`height` (lines 140-142). -/
@[ext]
structure Platform where
  pos : V2
  vel : V2
  mass : ℝ
  elasticity : ℝ
  width : ℝ
  height : ℝ

/-- A simulated body is a `Ball` or a `Platform` (`Body` itself is abstract;
only these two subclasses are instantiated). -/
inductive Body where
  | ball (b : Ball)
  | platform (p : Platform)

/-- The class attribute `fixed` (`Ball.fixed = False`, `Platform.fixed = True`). -/
def Body.fixed : Body → Bool
  | .ball _ => false
  | .platform _ => true

/-- Position of a body. -/
def Body.pos : Body → V2
  | .ball b => b.pos
  | .platform p => p.pos

/-- Velocity of a body. -/
def Body.vel : Body → V2
  | .ball b => b.vel
  | .platform p => p.vel

/-- `Body.__init__` elasticity handling (lines 26-29): Python tests
`if elasticity:`, i.e. the TRUTHINESS of the argument, so both the omitted
argument (`None`) and an explicit `0` (or `0.0`) fall through to the default
`1.0`.  The argument is modelled as `Option ℝ` (`none` = omitted / `None`). -/
noncomputable def Body.init_elasticity (elasticity : Option ℝ) : ℝ :=
  match elasticity with
  | none => 1.0
  | some v => if v = 0 then 1.0 else v

/-- `Ball.__init__(pos, vel, mass, radius, color, elasticity)` (lines 91-93),
restricted to the physics fields. -/
noncomputable def Ball.init (pos vel : V2) (mass radius : ℝ)
    (elasticity : Option ℝ) : Ball :=
  { pos := pos, vel := vel, mass := mass, radius := radius,
    elasticity := Body.init_elasticity elasticity }

/-- `Body.apply_vel(time_step)` (lines 40-41): `pos += vel * time_step`. -/
def Body.apply_vel (self : Body) (time_step : ℝ) : Body :=
  match self with
  | .ball b =>
      .ball { b with pos := ⟨b.pos.x + b.vel.x * time_step, b.pos.y + b.vel.y * time_step⟩ }
  | .platform p =>
      .platform { p with pos := ⟨p.pos.x + p.vel.x * time_step, p.pos.y + p.vel.y * time_step⟩ }

/-- `Ball.apply_gravity(g, time_step)` (lines 101-103): gravity is applied
only when `pos.y > radius` (emulated normal force for a resting ball). -/
noncomputable def Ball.apply_gravity (self : Ball) (g time_step : ℝ) : Ball :=
  if self.pos.y > self.radius then
    { self with vel := ⟨self.vel.x, self.vel.y - g * time_step⟩ }
  else
    self

/-- The distance clamp constant `0.000000001` of line 58. -/
noncomputable def collisionEps : ℝ := 1 / 1000000000

/-- The ball-ball arithmetic of `Body.collide_body` (lines 56-67), executed
once the overlap test on line 55 has succeeded. The sound handling of
lines 69-71 is an observer side effect (it touches no physics state) and is
therefore not part of the returned pair. -/
noncomputable def ballBallResolve (a b : Ball) : Ball × Ball :=
  let d := V2.distance_to a.pos b.pos
  let n : V2 := ⟨(b.pos.x - a.pos.x) / max d collisionEps,
                 (b.pos.y - a.pos.y) / max d collisionEps⟩
  let p := 2 * (V2.dot a.vel n - V2.dot b.vel n) / (a.mass + b.mass)
  let a1vel : V2 := ⟨a.vel.x - p * b.mass * n.x * a.elasticity,
                     a.vel.y - p * b.mass * n.y * a.elasticity⟩
  let b1vel : V2 := ⟨b.vel.x + p * a.mass * n.x * b.elasticity,
                     b.vel.y + p * a.mass * n.y * b.elasticity⟩
  let desired_distance := a.radius + b.radius
  let a1pos : V2 := ⟨a.pos.x - n.x * (desired_distance - d) * b.mass / (a.mass + b.mass),
                     a.pos.y - n.y * (desired_distance - d) * b.mass / (a.mass + b.mass)⟩
  let b1pos : V2 := ⟨b.pos.x + n.x * (desired_distance - d) * a.mass / (a.mass + b.mass),
                     b.pos.y + n.y * (desired_distance - d) * a.mass / (a.mass + b.mass)⟩
  ({ a with pos := a1pos, vel := a1vel }, { b with pos := b1pos, vel := b1vel })

/-- The ball-platform branch of `Body.collide_body` (lines 74-83): an
axis-aligned bounding check (Python chained comparisons), a vertical snap
chosen by the sign of the vertical velocity, and a vertical reflection. Only
the ball is mutated. -/
noncomputable def ballPlatformResolve (ball : Ball) (platform : Platform) : Ball × Bool :=
  if platform.pos.x - ball.radius < ball.pos.x ∧
     ball.pos.x < platform.pos.x + platform.width + ball.radius then
    if platform.pos.y - ball.radius < ball.pos.y ∧
       ball.pos.y < platform.pos.y + platform.height + ball.radius then
      ({ ball with
          pos := ⟨ball.pos.x,
                  if ball.vel.y > 0 then platform.pos.y - ball.radius
                  else platform.pos.y + platform.height + ball.radius⟩,
          vel := ⟨ball.vel.x, ball.vel.y * (-ball.elasticity)⟩ }, true)
    else (ball, false)
  else (ball, false)

/-- `Body.collide_body(other, time_step)` (lines 50-85). The value is the
updated pair `(self, other)` and the Boolean return. On a platform-platform
pair the Python code reaches `ball.radius` with `ball` bound to a `Platform`
and raises `AttributeError`; that crash is modelled as `none`. -/
noncomputable def Body.collide_body (self other : Body) (time_step : ℝ) :
    Option (Body × Body × Bool) :=
  match self, other with
  | .ball a, .ball b =>
      if V2.distance_to a.pos b.pos < a.radius + b.radius then
        let r := ballBallResolve a b
        some (.ball r.1, .ball r.2, true)
      else
        some (.ball a, .ball b, false)
  | .ball a, .platform pl =>
      let r := ballPlatformResolve a pl
      some (.ball r.1, .platform pl, r.2)
  | .platform pl, .ball a =>
      let r := ballPlatformResolve a pl
      some (.platform pl, .ball r.1, r.2)
  | .platform _, .platform _ => none

/-- `Ball.collide_walls(room_width, room_height, g)` (lines 105-134). The
result is the updated ball, the `hit` return value, and the list of
magnitudes passed to `play_collision_sound`, in call order (one call inside
the right-wall branch on line 116, one final call on line 132 when `hit`).
The ceiling branch is commented out in the source and therefore absent. -/
noncomputable def Ball.collide_walls (self : Ball) (room_width room_height g : ℝ) :
    Ball × Bool × List ℝ :=
  let old_vel := self.vel
  let step1 : Ball × Bool × List ℝ :=
    if self.pos.x < self.radius then
      ({ self with vel := ⟨self.vel.x * (-self.elasticity), self.vel.y⟩,
                   pos := ⟨self.radius, self.pos.y⟩ }, true, [])
    else if self.pos.x > room_width - self.radius then
      let bumped : Ball :=
        { self with vel := ⟨self.vel.x * (-self.elasticity), self.vel.y⟩,
                    pos := ⟨room_width - self.radius, self.pos.y⟩ }
      (bumped, true, [(V2.sub bumped.vel old_vel).length])
    else (self, false, [])
  let bmid := step1.1
  let step2 : Ball × Bool :=
    if bmid.pos.y < bmid.radius ∧ bmid.vel.y < 0 then
      ({ bmid with
          vel := ⟨bmid.vel.x,
                  -Real.sqrt |bmid.vel.y ^ 2 - 2 * g * (bmid.radius - bmid.pos.y)| *
                    (-bmid.elasticity)⟩,
          pos := ⟨bmid.pos.x, bmid.radius⟩ }, true)
    else (bmid, step1.2.1)
  let bfin := step2.1
  let hit := step2.2
  let calls :=
    if hit then step1.2.2 ++ [(V2.sub bfin.vel old_vel).length] else step1.2.2
  (bfin, hit, calls)

/-- The guard of `Body.play_collision_sound` (lines 34-38) with the sound
loaded (as `main` arranges): a call actually plays exactly when the passed
velocity-change magnitude is nonzero. `effectivePlays` keeps, in order, the
magnitudes of the calls that reach the observer. -/
noncomputable def effectivePlays : List ℝ → List ℝ
  | [] => []
  | m :: rest => if m = 0 then effectivePlays rest else m :: effectivePlays rest

/-- Index pairs `(i, j)` with `i < j < n`, in the order produced by
`itertools.combinations(bodies, 2)` on line 180. -/
def pairIndices (n : ℕ) : List (ℕ × ℕ) :=
  (List.range n).flatMap (fun i => ((List.range n).drop (i + 1)).map (fun j => (i, j)))

/-- One in-place pairwise collision `body_pair[0].collide_body(body_pair[1])`
(line 181), acting on the body list at the two indices. -/
noncomputable def collideAt (dt : ℝ) (l : List Body) (ij : ℕ × ℕ) : Option (List Body) :=
  match l.get? ij.1, l.get? ij.2 with
  | some a, some b =>
      (Body.collide_body a b dt).map (fun r => (l.set ij.1 r.1).set ij.2 r.2.1)
  | _, _ => some l

/-- All pairwise collisions of `physics_step` (lines 180-183). -/
noncomputable def collidePairs (l : List Body) (dt : ℝ) : Option (List Body) :=
  List.foldlM (fun acc ij => collideAt dt acc ij) l (pairIndices l.length)

/-- `Simulation.physics_step(time_step)` (lines 165-183): integrate the
non-fixed bodies, then apply gravity and wall contact to the non-fixed bodies
(every non-fixed body is a `Ball`, so the `Ball` overrides run), then resolve
all pairwise collisions. The process-wide `collision_count` and its `print`
are observability only and are not part of the state here. -/
noncomputable def Simulation.physics_step (bodies : List Body)
    (g room_width room_height dt : ℝ) : Option (List Body) :=
  let moved := bodies.map (fun b => if b.fixed then b else b.apply_vel dt)
  let walled := moved.map (fun b =>
    match b with
    | .ball x => .ball ((Ball.collide_walls (x.apply_gravity g dt) room_width room_height g).1)
    | .platform p => .platform p)
  collidePairs walled dt

/-- One round of `apply_gravity` followed by `collide_walls` with gravity
zero, in the order `physics_step` uses them. -/
noncomputable def gravityWallsRound (room_width room_height dt : ℝ) (b : Ball) : Ball :=
  ((b.apply_gravity 0 dt).collide_walls room_width room_height 0).1

/-- Positions and velocities of the two bodies of a `collide_body` result, in
operand order `(self, other)`. -/
def pairOutcome (r : Body × Body × Bool) : (V2 × V2) × V2 × V2 :=
  ((r.1.pos, r.1.vel), r.2.1.pos, r.2.1.vel)

/-- Positions and velocities of the two bodies of a `collide_body` result, in
swapped order `(other, self)`. -/
def pairOutcomeSwapped (r : Body × Body × Bool) : (V2 × V2) × V2 × V2 :=
  ((r.2.1.pos, r.2.1.vel), r.1.pos, r.1.vel)

/-- A successful `collide_body` call leaves a fixed operand (a `Platform`)
entirely unchanged: the ball-ball branch involves no platform and the
ball-platform branch mutates only the ball. -/
theorem collide_body_keeps_fixed (a b : Body) (dt : ℝ) (a' b' : Body) (hbit : Bool)
    (hc : Body.collide_body a b dt = some (a', b', hbit)) :
    (a.fixed = true → a' = a) ∧ (b.fixed = true → b' = b) := by
  cases a <;> cases b <;> simp_all [Body.collide_body, Body.fixed]

/-- A successful `collideAt` step preserves the list length and every fixed
entry of the body list. -/
theorem collideAt_keeps_fixed (dt : ℝ) (l : List Body) (ij : ℕ × ℕ) (l' : List Body)
    (hc : collideAt dt l ij = some l') :
    l'.length = l.length ∧
    ∀ k (hk : k < l.length) (hk' : k < l'.length),
      (l.get ⟨k, hk⟩).fixed = true → l'.get ⟨k, hk'⟩ = l.get ⟨k, hk⟩ := by
  unfold collideAt at hc
  cases hA : l.get? ij.1 with
  | none =>
      simp only [hA] at hc
      cases hB : l.get? ij.2 with
      | none =>
          simp only [hB, Option.some.injEq] at hc
          subst hc
          exact ⟨rfl, fun k hk hk' _ => rfl⟩
      | some b =>
          simp only [hB, Option.some.injEq] at hc
          subst hc
          exact ⟨rfl, fun k hk hk' _ => rfl⟩
  | some a =>
      cases hB : l.get? ij.2 with
      | none =>
          simp only [hA, hB, Option.some.injEq] at hc
          subst hc
          exact ⟨rfl, fun k hk hk' _ => rfl⟩
      | some b =>
          simp only [hA, hB] at hc
          rcases Option.map_eq_some'.mp hc with ⟨r, hr, hl'⟩
          obtain ⟨a', b', hbit⟩ := r
          have hkeep := collide_body_keeps_fixed a b dt a' b' hbit hr
          have hia : ij.1 < l.length := by
            by_contra hcon
            rw [List.get?_eq_none.mpr (le_of_not_lt hcon)] at hA
            simp at hA
          have hib : ij.2 < l.length := by
            by_contra hcon
            rw [List.get?_eq_none.mpr (le_of_not_lt hcon)] at hB
            simp at hB
          have hga : l.get ⟨ij.1, hia⟩ = a := by
            rw [List.get?_eq_get hia] at hA
            exact (Option.some.injEq _ _).mp hA
          have hgb : l.get ⟨ij.2, hib⟩ = b := by
            rw [List.get?_eq_get hib] at hB
            exact (Option.some.injEq _ _).mp hB
          subst hl'
          refine ⟨by simp, ?_⟩
          intro k hk hk' hfix
          by_cases hkj : k = ij.2
          · subst hkj
            have hgoal : ((l.set ij.1 a').set ij.2 b').get ⟨ij.2, hk'⟩ = b' :=
              List.get_set_eq hk'
            rw [hgoal]
            have hbfix : b.fixed = true := by rw [← hgb]; exact hfix
            rw [hkeep.2 hbfix, hgb]
          · have h1 : ((l.set ij.1 a').set ij.2 b').get ⟨k, hk'⟩
                = (l.set ij.1 a').get ⟨k, by simpa using hk⟩ :=
              List.get_set_ne (Ne.symm hkj) _
            rw [h1]
            by_cases hki : k = ij.1
            · subst hki
              have hgoal : (l.set ij.1 a').get ⟨ij.1, by simpa using hk⟩ = a' :=
                List.get_set_eq (by simpa using hk)
              rw [hgoal]
              have hafix : a.fixed = true := by rw [← hga]; exact hfix
              rw [hkeep.1 hafix, hga]
            · exact List.get_set_ne (Ne.symm hki) _

/-- Folding the pairwise collision pass over any pair list preserves the list
length and every fixed entry. -/
theorem foldl_collide_keeps_fixed (dt : ℝ) (pairs : List (ℕ × ℕ)) :
    ∀ (l l' : List Body),
      List.foldlM (fun acc ij => collideAt dt acc ij) l pairs = some l' →
      l'.length = l.length ∧
      ∀ k (hk : k < l.length) (hk' : k < l'.length),
        (l.get ⟨k, hk⟩).fixed = true → l'.get ⟨k, hk'⟩ = l.get ⟨k, hk⟩ := by
  induction pairs with
  | nil =>
      intro l l' hc
      simp only [List.foldlM_nil, pure, Option.some.injEq] at hc
      subst hc
      exact ⟨rfl, fun k hk hk' _ => rfl⟩
  | cons p ps ih =>
      intro l l' hc
      rw [List.foldlM_cons] at hc
      rcases Option.bind_eq_some.mp hc with ⟨mid, hmid, hrest⟩
      have h1 := collideAt_keeps_fixed dt l p mid hmid
      have h2 := ih mid l' hrest
      constructor
      · rw [h2.1, h1.1]
      · intro k hk hk' hfix
        have hkm : k < mid.length := by rw [h1.1]; exact hk
        have e1 : mid.get ⟨k, hkm⟩ = l.get ⟨k, hk⟩ := h1.2 k hk hkm hfix
        have hfix2 : (mid.get ⟨k, hkm⟩).fixed = true := by rw [e1]; exact hfix
        have e2 : l'.get ⟨k, hk'⟩ = mid.get ⟨k, hkm⟩ := h2.2 k hkm hk' hfix2
        rw [e2, e1]

/-- Sample run of `physics_step` on one platform and one free-flying ball:
the ball integrates its velocity for one step and nothing else happens. -/
theorem physics_step_sample_run :
    Simulation.physics_step
        [Body.platform ⟨⟨0,0⟩, ⟨0,0⟩, -1, 1, 1, 1⟩, Body.ball ⟨⟨5,5⟩, ⟨1,0⟩, 1, 1, 1⟩]
        0 10 10 1
      = some [Body.platform ⟨⟨0,0⟩, ⟨0,0⟩, -1, 1, 1, 1⟩, Body.ball ⟨⟨6,5⟩, ⟨1,0⟩, 1, 1, 1⟩] := by
  have hmove : Body.apply_vel (Body.ball ⟨⟨5,5⟩, ⟨1,0⟩, 1, 1, 1⟩) 1
      = Body.ball ⟨⟨6,5⟩, ⟨1,0⟩, 1, 1, 1⟩ := by
    simp only [Body.apply_vel]
    norm_num
  have hgrav : Ball.apply_gravity ⟨⟨6,5⟩, ⟨1,0⟩, 1, 1, 1⟩ 0 1 = ⟨⟨6,5⟩, ⟨1,0⟩, 1, 1, 1⟩ := by
    simp only [Ball.apply_gravity]
    norm_num
  have hwall : (Ball.collide_walls ⟨⟨6,5⟩, ⟨1,0⟩, 1, 1, 1⟩ 10 10 0).1
      = ⟨⟨6,5⟩, ⟨1,0⟩, 1, 1, 1⟩ := by
    simp only [Ball.collide_walls]
    norm_num
  have hpair : pairIndices 2 = [(0, 1)] := by
    simp [pairIndices, List.range_succ]
  have hcb : Body.collide_body (Body.platform ⟨⟨0,0⟩, ⟨0,0⟩, -1, 1, 1, 1⟩)
      (Body.ball ⟨⟨6,5⟩, ⟨1,0⟩, 1, 1, 1⟩) 1
      = some (Body.platform ⟨⟨0,0⟩, ⟨0,0⟩, -1, 1, 1, 1⟩, Body.ball ⟨⟨6,5⟩, ⟨1,0⟩, 1, 1, 1⟩,
          false) := by
    simp only [Body.collide_body, ballPlatformResolve]
    norm_num
  simp only [Simulation.physics_step, Body.fixed, List.map, if_true, if_false, hmove,
    Bool.false_eq_true, ite_false, ite_true, collidePairs, List.length_cons,
    List.length_nil, hgrav, hwall]
  rw [hpair]
  simp only [List.foldlM, collideAt, List.get?, hcb, Option.map_some', Option.bind_some,
    List.set]
  rfl

/-- Claim C1: `collide_body` is symmetric. For any two bodies A and B and any
time step, resolving the pair as (A, B) and as (B, A) yields identical
resulting positions and velocities for both bodies (and the same crash
behavior on the degenerate platform-platform pair). -/
theorem c1_collide_body_symmetric (A B : Body) (dt : ℝ) :
    Option.map pairOutcome (Body.collide_body A B dt) =
      Option.map pairOutcomeSwapped (Body.collide_body B A dt) := by
  cases A with
  | ball a =>
    cases B with
    | ball b =>
      simp only [Body.collide_body]
      have hd : V2.distance_to b.pos a.pos = V2.distance_to a.pos b.pos := by
        simp only [V2.distance_to]
        congr 1
        ring
      rw [hd, add_comm b.radius a.radius]
      split_ifs with h
      · simp only [Option.map_some', ballBallResolve, pairOutcome, pairOutcomeSwapped,
          Body.pos, Body.vel, V2.dot, hd, Prod.mk.injEq, V2.mk.injEq]
        ring_nf
      · simp [pairOutcome, pairOutcomeSwapped, Body.pos, Body.vel]
    | platform p =>
      simp [Body.collide_body, pairOutcome, pairOutcomeSwapped, Body.pos, Body.vel]
  | platform p =>
    cases B with
    | ball a =>
      simp [Body.collide_body, pairOutcome, pairOutcomeSwapped, Body.pos, Body.vel]
    | platform q =>
      simp [Body.collide_body]

/-- Claim C2, counterexample: two overlapping balls whose centers coincide
are resolved (the call returns true) but are left with center distance 0, not
`r1 + r2 = 2`: the positional correction is scaled by the zero contact normal
and moves nothing. -/
theorem c2_counterexample :
    Body.collide_body (.ball ⟨⟨0,0⟩, ⟨0,0⟩, 1, 1, 1⟩) (.ball ⟨⟨0,0⟩, ⟨0,0⟩, 1, 1, 1⟩) 1
      = some (.ball ⟨⟨0,0⟩, ⟨0,0⟩, 1, 1, 1⟩, .ball ⟨⟨0,0⟩, ⟨0,0⟩, 1, 1, 1⟩, true) ∧
    V2.distance_to (⟨0,0⟩ : V2) (⟨0,0⟩ : V2) ≠ (1:ℝ) + 1 := by
  have hd : V2.distance_to (⟨0,0⟩ : V2) (⟨0,0⟩ : V2) = 0 := by
    simp [V2.distance_to]
  constructor
  · simp only [Body.collide_body, ballBallResolve, hd]
    norm_num
  · rw [hd]
    norm_num

/-- Claim C2, amended: after a resolved ball-ball collision whose
pre-collision center distance is at least the clamp epsilon, the distance
between the two centers is exactly `r1 + r2` (idealized real arithmetic). -/
theorem c2_separation_equals_radius_sum (a b : Ball) (dt : ℝ)
    (heps : collisionEps ≤ V2.distance_to a.pos b.pos)
    (hover : V2.distance_to a.pos b.pos < a.radius + b.radius)
    (hmass : a.mass + b.mass ≠ 0) :
    Body.collide_body (.ball a) (.ball b) dt
        = some (.ball (ballBallResolve a b).1, .ball (ballBallResolve a b).2, true) ∧
    V2.distance_to (ballBallResolve a b).1.pos (ballBallResolve a b).2.pos
        = a.radius + b.radius := by
  have heps0 : (0:ℝ) < collisionEps := by norm_num [collisionEps]
  have hd0 : 0 < V2.distance_to a.pos b.pos := lt_of_lt_of_le heps0 heps
  have hdne : V2.distance_to a.pos b.pos ≠ 0 := ne_of_gt hd0
  have hmax : max (V2.distance_to a.pos b.pos) collisionEps = V2.distance_to a.pos b.pos :=
    max_eq_left heps
  have hsq : (b.pos.x - a.pos.x) ^ 2 + (b.pos.y - a.pos.y) ^ 2
      = V2.distance_to a.pos b.pos ^ 2 := by
    simp only [V2.distance_to]
    rw [Real.sq_sqrt (by positivity)]
  constructor
  · simp only [Body.collide_body]
    rw [if_pos hover]
  · have hX : (ballBallResolve a b).2.pos.x - (ballBallResolve a b).1.pos.x
        = (b.pos.x - a.pos.x) * ((a.radius + b.radius) / V2.distance_to a.pos b.pos) := by
      simp only [ballBallResolve, hmax]
      field_simp
      ring
    have hY : (ballBallResolve a b).2.pos.y - (ballBallResolve a b).1.pos.y
        = (b.pos.y - a.pos.y) * ((a.radius + b.radius) / V2.distance_to a.pos b.pos) := by
      simp only [ballBallResolve, hmax]
      field_simp
      ring
    have hR : 0 ≤ a.radius + b.radius := le_of_lt (lt_trans hd0 hover)
    have hkey : ((b.pos.x - a.pos.x) * ((a.radius + b.radius) / V2.distance_to a.pos b.pos)) ^ 2
        + ((b.pos.y - a.pos.y) * ((a.radius + b.radius) / V2.distance_to a.pos b.pos)) ^ 2
        = (a.radius + b.radius) ^ 2 := by
      field_simp
      linear_combination (a.radius + b.radius) ^ 2 * hsq
    simp only [V2.distance_to]
    rw [hX, hY, hkey, Real.sqrt_sq hR]

/-- Claim C2, witness of the amended theorem at two unit balls one meter
apart: their resolved center distance is exactly 2. -/
theorem c2_separation_witness :
    V2.distance_to
        (ballBallResolve ⟨⟨0,0⟩, ⟨0,0⟩, 1, 1, 1⟩ ⟨⟨1,0⟩, ⟨0,0⟩, 1, 1, 1⟩).1.pos
        (ballBallResolve ⟨⟨0,0⟩, ⟨0,0⟩, 1, 1, 1⟩ ⟨⟨1,0⟩, ⟨0,0⟩, 1, 1, 1⟩).2.pos
      = 1 + 1 :=
  (c2_separation_equals_radius_sum ⟨⟨0,0⟩, ⟨0,0⟩, 1, 1, 1⟩ ⟨⟨1,0⟩, ⟨0,0⟩, 1, 1, 1⟩ 1
    (by norm_num [V2.distance_to, collisionEps])
    (by norm_num [V2.distance_to])
    (by norm_num)).2

/-- Claim C3, counterexample: two equal-mass balls with elasticity 0 collide
head-on; the resolved velocities are completely unchanged, so the relative
normal velocity component is 2, not 0 — the collision does not cancel it. -/
theorem c3_counterexample :
    Body.collide_body (.ball ⟨⟨0,0⟩, ⟨1,0⟩, 1, 1, 0⟩) (.ball ⟨⟨1,0⟩, ⟨-1,0⟩, 1, 1, 0⟩) 1
      = some (.ball ⟨⟨-(1/2),0⟩, ⟨1,0⟩, 1, 1, 0⟩, .ball ⟨⟨3/2,0⟩, ⟨-1,0⟩, 1, 1, 0⟩, true) ∧
    V2.dot (V2.sub (⟨1,0⟩ : V2) (⟨-1,0⟩ : V2)) ⟨1,0⟩ = 2 ∧ (2:ℝ) ≠ 0 := by
  have hd : V2.distance_to (⟨0,0⟩ : V2) (⟨1,0⟩ : V2) = 1 := by
    simp [V2.distance_to]
  have hmax : max (1:ℝ) collisionEps = 1 := by
    rw [max_eq_left]
    norm_num [collisionEps]
  refine ⟨?_, by norm_num [V2.dot, V2.sub], by norm_num⟩
  simp only [Body.collide_body, ballBallResolve, hd, hmax]
  norm_num [V2.dot]

/-- Claim C3, amended: for two balls of equal nonzero mass with elasticity 1
colliding head-on (both velocities along the center line), the resolved
velocities are the entry velocities swapped exactly; for two balls with
elasticity 0, the resolved velocities are completely unchanged (the relative
normal velocity component is preserved, not canceled). -/
theorem c3_collision_velocity_modes :
    (∀ (a b : Ball) (dt α β : ℝ),
       a.mass = b.mass → b.mass ≠ 0 →
       a.elasticity = 1 → b.elasticity = 1 →
       a.vel = ⟨α * (b.pos.x - a.pos.x), α * (b.pos.y - a.pos.y)⟩ →
       b.vel = ⟨β * (b.pos.x - a.pos.x), β * (b.pos.y - a.pos.y)⟩ →
       collisionEps ≤ V2.distance_to a.pos b.pos →
       V2.distance_to a.pos b.pos < a.radius + b.radius →
       Body.collide_body (.ball a) (.ball b) dt
         = some (.ball (ballBallResolve a b).1, .ball (ballBallResolve a b).2, true) ∧
       (ballBallResolve a b).1.vel = b.vel ∧ (ballBallResolve a b).2.vel = a.vel) ∧
    (∀ (a b : Ball) (dt : ℝ),
       a.elasticity = 0 → b.elasticity = 0 →
       a.mass + b.mass ≠ 0 →
       V2.distance_to a.pos b.pos < a.radius + b.radius →
       Body.collide_body (.ball a) (.ball b) dt
         = some (.ball (ballBallResolve a b).1, .ball (ballBallResolve a b).2, true) ∧
       (ballBallResolve a b).1.vel = a.vel ∧ (ballBallResolve a b).2.vel = b.vel) := by
  constructor
  · intro a b dt α β hma hm hea heb hva hvb heps hover
    have heps0 : (0:ℝ) < collisionEps := by norm_num [collisionEps]
    have hd0 : 0 < V2.distance_to a.pos b.pos := lt_of_lt_of_le heps0 heps
    have hdne : V2.distance_to a.pos b.pos ≠ 0 := ne_of_gt hd0
    have hmax : max (V2.distance_to a.pos b.pos) collisionEps = V2.distance_to a.pos b.pos :=
      max_eq_left heps
    have hsq : (b.pos.x - a.pos.x) ^ 2 + (b.pos.y - a.pos.y) ^ 2
        = V2.distance_to a.pos b.pos ^ 2 := by
      simp only [V2.distance_to]
      rw [Real.sq_sqrt (by positivity)]
    have hm2 : b.mass + b.mass ≠ 0 := by
      intro hc
      apply hm
      linarith
    refine ⟨?_, ?_⟩
    · simp only [Body.collide_body]
      rw [if_pos hover]
    · simp only [ballBallResolve, hmax, V2.dot, hva, hvb, hea, heb, hma, V2.mk.injEq]
      refine ⟨⟨?_, ?_⟩, ?_, ?_⟩
      · field_simp
        linear_combination (-2 * (α - β) * (b.pos.x - a.pos.x) * b.mass) * hsq
      · field_simp
        linear_combination (-2 * (α - β) * (b.pos.y - a.pos.y) * b.mass) * hsq
      · field_simp
        linear_combination (2 * (α - β) * (b.pos.x - a.pos.x) * b.mass) * hsq
      · field_simp
        linear_combination (2 * (α - β) * (b.pos.y - a.pos.y) * b.mass) * hsq
  · intro a b dt hea heb hm hover
    refine ⟨?_, ?_, ?_⟩
    · simp only [Body.collide_body]
      rw [if_pos hover]
    · simp only [ballBallResolve, hea]
      simp
    · simp only [ballBallResolve, heb]
      simp

/-- Claim C3, witness: a head-on unit-mass elastic pair swaps its velocities,
and a zero-elasticity pair keeps its velocity. -/
theorem c3_collision_velocity_modes_witness :
    (ballBallResolve ⟨⟨0,0⟩, ⟨1,0⟩, 1, 1, 1⟩ ⟨⟨1,0⟩, ⟨-1,0⟩, 1, 1, 1⟩).1.vel = ⟨-1,0⟩ ∧
    (ballBallResolve ⟨⟨0,0⟩, ⟨1,0⟩, 1, 1, 1⟩ ⟨⟨1,0⟩, ⟨-1,0⟩, 1, 1, 1⟩).2.vel = ⟨1,0⟩ ∧
    (ballBallResolve ⟨⟨0,0⟩, ⟨0,1⟩, 1, 1, 0⟩ ⟨⟨1,0⟩, ⟨0,0⟩, 2, 1, 0⟩).1.vel = ⟨0,1⟩ := by
  have h1 := (c3_collision_velocity_modes.1 ⟨⟨0,0⟩, ⟨1,0⟩, 1, 1, 1⟩ ⟨⟨1,0⟩, ⟨-1,0⟩, 1, 1, 1⟩
    1 1 (-1) rfl (by norm_num) rfl rfl
    (by norm_num [V2.mk.injEq])
    (by norm_num [V2.mk.injEq])
    (by norm_num [V2.distance_to, collisionEps])
    (by norm_num [V2.distance_to]))
  have h2 := (c3_collision_velocity_modes.2 ⟨⟨0,0⟩, ⟨0,1⟩, 1, 1, 0⟩ ⟨⟨1,0⟩, ⟨0,0⟩, 2, 1, 0⟩ 1
    rfl rfl (by norm_num)
    (by norm_num [V2.distance_to]))
  exact ⟨h1.2.1, h1.2.2, h2.2.1⟩

/-- Claim C4, counterexample: two balls at the exact same position are
resolved without any fault (the call returns true and well-defined state),
but no separation is produced: both balls keep their exact positions, whose
distance stays 0. -/
theorem c4_counterexample :
    Body.collide_body (.ball ⟨⟨3,3⟩, ⟨1,2⟩, 1, 1, 1⟩) (.ball ⟨⟨3,3⟩, ⟨-1,0⟩, 2, 1, 1⟩) 1
      = some (.ball ⟨⟨3,3⟩, ⟨1,2⟩, 1, 1, 1⟩, .ball ⟨⟨3,3⟩, ⟨-1,0⟩, 2, 1, 1⟩, true) ∧
    V2.distance_to (⟨3,3⟩ : V2) (⟨3,3⟩ : V2) = 0 := by
  have hd : V2.distance_to (⟨3,3⟩ : V2) (⟨3,3⟩ : V2) = 0 := by
    simp [V2.distance_to]
  constructor
  · simp only [Body.collide_body, ballBallResolve, hd]
    norm_num
  · exact hd

/-- Claim C4, amended: with coincident centers the distance clamp prevents
any division-by-zero fault and the call succeeds returning true, but the
contact normal degenerates to the zero vector, so both balls are left with
exactly their entry positions and velocities — the balls stay coincident and
no separation is produced. -/
theorem c4_coincident_no_fault (a b : Ball) (dt : ℝ) (hpos : a.pos = b.pos)
    (hover : 0 < a.radius + b.radius) (hmass : a.mass + b.mass ≠ 0) :
    Body.collide_body (.ball a) (.ball b) dt = some (.ball a, .ball b, true) := by
  have hd : V2.distance_to a.pos b.pos = 0 := by
    rw [hpos]; simp [V2.distance_to]
  have hres : ballBallResolve a b = (a, b) := by
    simp only [ballBallResolve, hd, ← hpos]
    norm_num
    rw [hpos]
  simp only [Body.collide_body, hd, hres]
  rw [if_pos hover]

/-- Claim C4, witness: two concrete coincident balls are resolved with no
fault and no state change. -/
theorem c4_coincident_no_fault_witness :
    Body.collide_body (.ball ⟨⟨3,2⟩, ⟨5,6⟩, 1, 1, 1⟩) (.ball ⟨⟨3,2⟩, ⟨7,8⟩, 1, 2, 1⟩) 1
      = some (.ball ⟨⟨3,2⟩, ⟨5,6⟩, 1, 1, 1⟩, .ball ⟨⟨3,2⟩, ⟨7,8⟩, 1, 2, 1⟩, true) :=
  c4_coincident_no_fault ⟨⟨3,2⟩, ⟨5,6⟩, 1, 1, 1⟩ ⟨⟨3,2⟩, ⟨7,8⟩, 1, 2, 1⟩ 1 rfl
    (by norm_num) (by norm_num)

/-- Claim C5: when the floor branch of `collide_walls` fires (entry
`pos.y < radius` and `vel.y < 0`), the exit vertical velocity equals
`elasticity * sqrt(|v0^2 - 2*g*(radius - y0)|)` for the entry values `v0`,
`y0`, and the exit vertical position equals `radius`. -/
theorem c5_floor_energy_correction (b : Ball) (room_width room_height g : ℝ)
    (hy : b.pos.y < b.radius) (hvy : b.vel.y < 0) :
    (b.collide_walls room_width room_height g).1.vel.y
        = b.elasticity * Real.sqrt |b.vel.y ^ 2 - 2 * g * (b.radius - b.pos.y)| ∧
    (b.collide_walls room_width room_height g).1.pos.y = b.radius := by
  simp only [Ball.collide_walls]
  split_ifs with h1 h2 h3 h4 h5 <;>
    simp_all <;> ring

/-- Claim C5, witness: a ball below the floor moving down at 3 m/s with
gravity 4 exits with the energy-corrected upward velocity. -/
theorem c5_floor_energy_correction_witness :
    (Ball.collide_walls ⟨⟨5,0⟩, ⟨0,-3⟩, 1, 1, 1⟩ 10 10 4).1.vel.y
        = (1:ℝ) * Real.sqrt |(-3:ℝ) ^ 2 - 2 * 4 * (1 - 0)| ∧
    (Ball.collide_walls ⟨⟨5,0⟩, ⟨0,-3⟩, 1, 1, 1⟩ 10 10 4).1.pos.y = 1 :=
  c5_floor_energy_correction ⟨⟨5,0⟩, ⟨0,-3⟩, 1, 1, 1⟩ 10 10 4 (by norm_num) (by norm_num)

/-- Claim C6, counterexample: a right-wall contact with nonzero velocity
change notifies the observer twice, not exactly once — once from inside the
right-wall branch and once from the end-of-call notification. -/
theorem c6_counterexample :
    (Ball.collide_walls ⟨⟨10,5⟩, ⟨1,0⟩, 1, 1, 1⟩ 10 10 0).2.1 = true ∧
    effectivePlays (Ball.collide_walls ⟨⟨10,5⟩, ⟨1,0⟩, 1, 1, 1⟩ 10 10 0).2.2 = [2, 2] ∧
    ([2, 2] : List ℝ).length ≠ 1 := by
  have h4 : Real.sqrt 4 = 2 := by
    rw [show (4:ℝ) = 2 ^ 2 by norm_num, Real.sqrt_sq]
    norm_num
  have hw : Ball.collide_walls ⟨⟨10,5⟩, ⟨1,0⟩, 1, 1, 1⟩ 10 10 0
      = (⟨⟨9,5⟩, ⟨-1,0⟩, 1, 1, 1⟩, true, [2, 2]) := by
    simp only [Ball.collide_walls, V2.sub, V2.length]
    norm_num [h4]
  rw [hw]
  norm_num [effectivePlays]

/-- Claim C6, amended: a call with no wall contact changes nothing, makes no
notification and returns false; any contact returns true; a contact away
from the right wall notifies exactly once, with the net speed-delta
magnitude, whenever that magnitude is nonzero; a right-wall contact adds one
extra in-branch notification before the end-of-call one. -/
theorem c6_notification_behavior (b : Ball) (room_width room_height g : ℝ) :
    (¬(b.pos.x < b.radius) → ¬(room_width - b.radius < b.pos.x) →
       ¬(b.pos.y < b.radius ∧ b.vel.y < 0) →
       b.collide_walls room_width room_height g = (b, false, [])) ∧
    ((b.pos.x < b.radius ∨ room_width - b.radius < b.pos.x ∨
        (b.pos.y < b.radius ∧ b.vel.y < 0)) →
       (b.collide_walls room_width room_height g).2.1 = true) ∧
    ((b.pos.x < b.radius ∨
        (¬(room_width - b.radius < b.pos.x) ∧ b.pos.y < b.radius ∧ b.vel.y < 0)) →
       (V2.sub (b.collide_walls room_width room_height g).1.vel b.vel).length ≠ 0 →
       effectivePlays (b.collide_walls room_width room_height g).2.2
         = [(V2.sub (b.collide_walls room_width room_height g).1.vel b.vel).length]) ∧
    (¬(b.pos.x < b.radius) → room_width - b.radius < b.pos.x →
       (V2.sub ⟨b.vel.x * -b.elasticity, b.vel.y⟩ b.vel).length ≠ 0 →
       (V2.sub (b.collide_walls room_width room_height g).1.vel b.vel).length ≠ 0 →
       effectivePlays (b.collide_walls room_width room_height g).2.2
         = [(V2.sub ⟨b.vel.x * -b.elasticity, b.vel.y⟩ b.vel).length,
            (V2.sub (b.collide_walls room_width room_height g).1.vel b.vel).length]) := by
  refine ⟨?_, ?_, ?_, ?_⟩
  · intro hL hR hF
    simp only [Ball.collide_walls]
    split_ifs <;> simp_all
  · intro hC
    simp only [Ball.collide_walls]
    split_ifs <;> simp_all
  · intro hLF hnet
    simp only [Ball.collide_walls] at hnet ⊢
    split_ifs at hnet ⊢ <;> simp_all [effectivePlays]
  · intro hL hR hbr hnet
    simp only [Ball.collide_walls] at hnet ⊢
    split_ifs at hnet ⊢ <;> simp_all [effectivePlays]

/-- Claim C6, witness: a left-wall bounce notifies exactly once, with the net
speed-delta magnitude. -/
theorem c6_notification_behavior_witness :
    effectivePlays (Ball.collide_walls ⟨⟨0,5⟩, ⟨-1,0⟩, 1, 1, 1⟩ 10 10 0).2.2
      = [(V2.sub (Ball.collide_walls ⟨⟨0,5⟩, ⟨-1,0⟩, 1, 1, 1⟩ 10 10 0).1.vel
            (⟨-1,0⟩ : V2)).length] := by
  have h4 : Real.sqrt 4 = 2 := by
    rw [show (4:ℝ) = 2 ^ 2 by norm_num, Real.sqrt_sq]
    norm_num
  have hw : Ball.collide_walls ⟨⟨0,5⟩, ⟨-1,0⟩, 1, 1, 1⟩ 10 10 0
      = (⟨⟨1,5⟩, ⟨1,0⟩, 1, 1, 1⟩, true, [2]) := by
    simp only [Ball.collide_walls, V2.sub, V2.length]
    norm_num [h4]
  exact (c6_notification_behavior ⟨⟨0,5⟩, ⟨-1,0⟩, 1, 1, 1⟩ 10 10 0).2.2.1
    (Or.inl (by norm_num))
    (by rw [hw]; norm_num [V2.sub, V2.length, h4])

/-- Claim C7, counterexample: a ball wider than the room (radius 2, room
width 1) hitting the left wall is clamped to x = 2, which violates the
claimed upper bound `room_width - radius = -1`, so the containment interval
claim fails without a fit assumption. -/
theorem c7_counterexample :
    (Ball.collide_walls ⟨⟨0,5⟩, ⟨0,0⟩, 1, 2, 1⟩ 1 10 0).1.pos.x = 2 ∧
    ¬((2:ℝ) ≤ 1 - 2) := by
  constructor
  · simp only [Ball.collide_walls]
    norm_num
  · norm_num

/-- Claim C7, amended: for a ball that fits the room (`2 * radius ≤
room_width`) with nonnegative elasticity, `collide_walls` leaves the
horizontal position inside `[radius, room_width - radius]`; and whenever the
floor branch fires (entry `pos.y < radius` and `vel.y < 0`) the ball exits
clamped at `pos.y = radius` with a nonnegative (upward or resting) vertical
velocity. -/
theorem c7_wall_containment (b : Ball) (room_width room_height g : ℝ)
    (hfit : 2 * b.radius ≤ room_width) (hel : 0 ≤ b.elasticity) :
    (b.radius ≤ (b.collide_walls room_width room_height g).1.pos.x ∧
     (b.collide_walls room_width room_height g).1.pos.x ≤ room_width - b.radius) ∧
    (b.pos.y < b.radius → b.vel.y < 0 →
      (b.collide_walls room_width room_height g).1.pos.y = b.radius ∧
      0 ≤ (b.collide_walls room_width room_height g).1.vel.y) := by
  have hsq : ∀ A : ℝ, 0 ≤ -Real.sqrt A * -b.elasticity := by
    intro A
    have : -Real.sqrt A * -b.elasticity = b.elasticity * Real.sqrt A := by ring
    rw [this]
    exact mul_nonneg hel (Real.sqrt_nonneg A)
  simp only [Ball.collide_walls]
  split_ifs with h1 h2 h3 h4 h5 h6
  all_goals simp_all
  all_goals linarith

/-- Claim C7, witness: a fitting ball dropping through the floor exits inside
the horizontal band, clamped to the floor and moving up or resting. -/
theorem c7_wall_containment_witness :
    ((1:ℝ) ≤ (Ball.collide_walls ⟨⟨5,0⟩, ⟨0,-1⟩, 1, 1, 1⟩ 10 10 0).1.pos.x ∧
     (Ball.collide_walls ⟨⟨5,0⟩, ⟨0,-1⟩, 1, 1, 1⟩ 10 10 0).1.pos.x ≤ 10 - 1) ∧
    ((0:ℝ) < 1 → (-1:ℝ) < 0 →
      (Ball.collide_walls ⟨⟨5,0⟩, ⟨0,-1⟩, 1, 1, 1⟩ 10 10 0).1.pos.y = 1 ∧
      0 ≤ (Ball.collide_walls ⟨⟨5,0⟩, ⟨0,-1⟩, 1, 1, 1⟩ 10 10 0).1.vel.y) :=
  c7_wall_containment ⟨⟨5,0⟩, ⟨0,-1⟩, 1, 1, 1⟩ 10 10 0 (by norm_num) (by norm_num)

/-- Claim C8, counterexample: a ball resting on the floor (`pos.y = radius`,
`vel.y = 0`) but placed beyond the left wall is NOT left unchanged by a
gravity-and-walls round with zero gravity: the wall branch clamps its x
position from -5 to 1. -/
theorem c8_counterexample :
    (gravityWallsRound 10 10 1 ⟨⟨-5,1⟩, ⟨0,0⟩, 1, 1, 1⟩).pos.x = 1 ∧ ((1:ℝ) ≠ -5) := by
  constructor
  · simp only [gravityWallsRound, Ball.apply_gravity, Ball.collide_walls]
    norm_num
  · norm_num

/-- Claim C8, amended: a ball resting exactly at `pos.y = radius` with
`vel.y = 0`, whose horizontal position lies within
`[radius, room_width - radius]`, is a fixed point of `apply_gravity` and of
`collide_walls` with gravity zero, and hence of any number of repeated
rounds. -/
theorem c8_resting_ball_fixed_point (b : Ball) (room_width room_height dt : ℝ) (n : ℕ)
    (hy : b.pos.y = b.radius) (hvy : b.vel.y = 0)
    (hx1 : b.radius ≤ b.pos.x) (hx2 : b.pos.x ≤ room_width - b.radius) :
    Ball.apply_gravity b 0 dt = b ∧
    (b.collide_walls room_width room_height 0).1 = b ∧
    Nat.iterate (gravityWallsRound room_width room_height dt) n b = b := by
  have hg : Ball.apply_gravity b 0 dt = b := by
    simp only [Ball.apply_gravity]
    rw [if_neg]
    rw [hy]
    exact lt_irrefl _
  have hw : (b.collide_walls room_width room_height 0).1 = b := by
    simp only [Ball.collide_walls]
    split_ifs <;> simp_all <;> linarith
  refine ⟨hg, hw, ?_⟩
  apply Function.iterate_fixed
  simp only [gravityWallsRound, hg, hw]

/-- Claim C8, witness: a concrete resting ball is unchanged by seven rounds. -/
theorem c8_resting_ball_fixed_point_witness :
    Ball.apply_gravity ⟨⟨5,1⟩, ⟨0,0⟩, 1, 1, 1⟩ 0 2 = ⟨⟨5,1⟩, ⟨0,0⟩, 1, 1, 1⟩ ∧
    (Ball.collide_walls ⟨⟨5,1⟩, ⟨0,0⟩, 1, 1, 1⟩ 10 10 0).1 = ⟨⟨5,1⟩, ⟨0,0⟩, 1, 1, 1⟩ ∧
    Nat.iterate (gravityWallsRound 10 10 2) 7 ⟨⟨5,1⟩, ⟨0,0⟩, 1, 1, 1⟩
      = ⟨⟨5,1⟩, ⟨0,0⟩, 1, 1, 1⟩ :=
  c8_resting_ball_fixed_point ⟨⟨5,1⟩, ⟨0,0⟩, 1, 1, 1⟩ 10 10 2 7 rfl rfl
    (by norm_num) (by norm_num)

/-- Claim C9: every fixed body (every `Platform`) ends a successful
`physics_step` with exactly the position and velocity it had at entry:
platforms are skipped by integration, gravity and wall contact, and the
ball-platform branch of `collide_body` mutates only the `Ball` operand. -/
theorem c9_platforms_unchanged (bodies : List Body) (g room_width room_height dt : ℝ)
    (out : List Body)
    (h : Simulation.physics_step bodies g room_width room_height dt = some out) :
    out.length = bodies.length ∧
    ∀ i (hi : i < bodies.length) (ho : i < out.length),
      (bodies.get ⟨i, hi⟩).fixed = true →
      (out.get ⟨i, ho⟩).pos = (bodies.get ⟨i, hi⟩).pos ∧
      (out.get ⟨i, ho⟩).vel = (bodies.get ⟨i, hi⟩).vel := by
  unfold Simulation.physics_step collidePairs at h
  set f1 : Body → Body := fun b => if b.fixed then b else b.apply_vel dt with hf1
  set f2 : Body → Body := fun b =>
    match b with
    | Body.ball x =>
        Body.ball ((x.apply_gravity g dt).collide_walls room_width room_height g).1
    | Body.platform p => Body.platform p with hf2
  set walled : List Body := (bodies.map f1).map f2 with hwd
  have hmain := foldl_collide_keeps_fixed dt (pairIndices walled.length) walled out h
  have hlen : walled.length = bodies.length := by simp [hwd]
  have hget : ∀ (i : ℕ) (hi : i < bodies.length) (hw : i < walled.length),
      (bodies.get ⟨i, hi⟩).fixed = true → walled.get ⟨i, hw⟩ = bodies.get ⟨i, hi⟩ := by
    intro i hi hw hfix
    have hw1 : i < (bodies.map f1).length := by simpa using hi
    have e1 : walled.get ⟨i, hw⟩ = f2 ((bodies.map f1).get ⟨i, hw1⟩) := by
      simp [hwd, List.get_map]
    have e2 : (bodies.map f1).get ⟨i, hw1⟩ = f1 (bodies.get ⟨i, hi⟩) := by
      simp [List.get_map]
    rw [e1, e2]
    cases hb : bodies.get ⟨i, hi⟩ with
    | ball x => rw [hb] at hfix; simp [Body.fixed] at hfix
    | platform p => simp [hf1, hf2, Body.fixed]
  constructor
  · rw [hmain.1, hlen]
  · intro i hi ho hfix
    have hw : i < walled.length := by rw [hlen]; exact hi
    have e1 := hget i hi hw hfix
    have hfixw : (walled.get ⟨i, hw⟩).fixed = true := by rw [e1]; exact hfix
    have e2 := hmain.2 i hw ho hfixw
    rw [e2, e1]
    exact ⟨rfl, rfl⟩

/-- Claim C9, witness: in a concrete step with one platform and one moving
ball, the platform keeps its position and velocity. -/
theorem c9_platforms_unchanged_witness :
    (([Body.platform ⟨⟨0,0⟩, ⟨0,0⟩, -1, 1, 1, 1⟩,
        Body.ball ⟨⟨6,5⟩, ⟨1,0⟩, 1, 1, 1⟩] : List Body).get ⟨0, by norm_num⟩).pos
      = (([Body.platform ⟨⟨0,0⟩, ⟨0,0⟩, -1, 1, 1, 1⟩,
          Body.ball ⟨⟨5,5⟩, ⟨1,0⟩, 1, 1, 1⟩] : List Body).get ⟨0, by norm_num⟩).pos ∧
    (([Body.platform ⟨⟨0,0⟩, ⟨0,0⟩, -1, 1, 1, 1⟩,
        Body.ball ⟨⟨6,5⟩, ⟨1,0⟩, 1, 1, 1⟩] : List Body).get ⟨0, by norm_num⟩).vel
      = (([Body.platform ⟨⟨0,0⟩, ⟨0,0⟩, -1, 1, 1, 1⟩,
          Body.ball ⟨⟨5,5⟩, ⟨1,0⟩, 1, 1, 1⟩] : List Body).get ⟨0, by norm_num⟩).vel :=
  (c9_platforms_unchanged
    [Body.platform ⟨⟨0,0⟩, ⟨0,0⟩, -1, 1, 1, 1⟩, Body.ball ⟨⟨5,5⟩, ⟨1,0⟩, 1, 1, 1⟩]
    0 10 10 1
    [Body.platform ⟨⟨0,0⟩, ⟨0,0⟩, -1, 1, 1, 1⟩, Body.ball ⟨⟨6,5⟩, ⟨1,0⟩, 1, 1, 1⟩]
    physics_step_sample_run).2 0 (by norm_num) (by norm_num) rfl

/-- Claim C10: constructing a `Ball` with an explicit elasticity argument of
exactly 0 produces elasticity 1.0 (the constructor tests truthiness of the
argument, not whether it was omitted), and no constructor argument can make
the stored elasticity 0. -/
theorem c10_constructor_elasticity_zero :
    (∀ pos vel mass radius, (Ball.init pos vel mass radius (some 0)).elasticity = 1) ∧
    (∀ pos vel mass radius e, (Ball.init pos vel mass radius e).elasticity ≠ 0) := by
  constructor
  · intro pos vel mass radius
    norm_num [Ball.init, Body.init_elasticity]
  · intro pos vel mass radius e
    cases e with
    | none => norm_num [Ball.init, Body.init_elasticity]
    | some v =>
      simp only [Ball.init, Body.init_elasticity]
      split_ifs with h
      · norm_num
      · exact h

end Balls
